import Mathlib

/-!
Verification development for the miami villa-rental repository.

The villa content routes (GET /villa, PATCH /villa, PATCH /villa/bank-details,
slide and room management) are embedded from the express router source.
JavaScript request bodies are modelled with `Option` fields (`none` =
`undefined`); JavaScript comparisons against a possibly-undefined value
(`x >= undefined` is `false`) are modelled by `jsGE` and `jsGT`.

The booking lifecycle (creation, payment-method selection, evidence
submission, lazy expiry) lives in server files that are not part of the
provided sources, only its client caller is; those operations are modelled
from the specification and are marked as such in their doc comments.
-/

namespace Miami

/-- Bilingual string pair, as stored in the villa document. -/
structure LocStr where
  en : String
  th : String
deriving DecidableEq

/-- One bank account entry of `villa.bankDetails`. Missing or empty JS
fields are modelled as the empty string (both are falsy in the source
validation). -/
structure BankEntry where
  bank : String
  accountNumber : String
  accountName : String
deriving DecidableEq

/-- One room of `villa.rooms`. -/
structure Room where
  name : LocStr
  description : LocStr
  images : List String
deriving DecidableEq

/-- The singleton villa document. Slide entries are `Option String`
because the reorder route can write `undefined` into the array. -/
structure Villa where
  name : LocStr
  title : LocStr
  description : LocStr
  beachfront : LocStr
  pricePerNight : Int
  discountedPrice : Int
  priceReductionPerRoom : Int
  maxGuests : Int
  bedrooms : Int
  minRooms : Int
  bathrooms : Int
  backgroundImage : Option String
  slideImages : List (Option String)
  rooms : List Room
  bankDetails : List BankEntry
  promptPayQr : Option String
deriving DecidableEq

/-- Stands for `new Villa()` in the routes. The mongoose schema file is
not among the provided sources, so unspecified fields default to
empty/zero here; no theorem below depends on these defaults. -/
def emptyVilla : Villa :=
  { name := ⟨"", ""⟩, title := ⟨"", ""⟩, description := ⟨"", ""⟩
    beachfront := ⟨"", ""⟩
    pricePerNight := 0, discountedPrice := 0, priceReductionPerRoom := 0
    maxGuests := 0, bedrooms := 0, minRooms := 0, bathrooms := 0
    backgroundImage := none, slideImages := [], rooms := []
    bankDetails := [], promptPayQr := none }

/-- The hardcoded document created by `GET /villa` when none exists. -/
def defaultVilla : Villa :=
  { emptyVilla with
    name := ⟨"Villa Paradise", "วิลล่า พาราไดซ์"⟩
    title := ⟨"Experience Luxury Like Never Before",
              "สัมผัสประสบการณ์ความหรูหราที่ไม่เคยมีมาก่อน"⟩
    description := ⟨"A luxurious villa with modern amenities",
                    "วิลล่าหรูพร้อมสิ่งอำนวยความสะดวกทันสมัย"⟩
    beachfront := ⟨"Direct access to the beach", "เข้าถึงชายหาดได้โดยตรง"⟩
    pricePerNight := 299, maxGuests := 6, bedrooms := 3, bathrooms := 3 }

/-- HTTP-level outcome of a villa route. -/
inductive Resp where
  | ok : Resp
  | badRequest : String → Resp
  | notFound : Resp
deriving DecidableEq

/-- Body of `PATCH /villa`; `none` is an absent (`undefined`) field. -/
structure PatchReq where
  name : Option LocStr
  title : Option LocStr
  description : Option LocStr
  beachfront : Option LocStr
  maxGuests : Option Int
  bedrooms : Option Int
  minRooms : Option Int
  bathrooms : Option Int
  pricePerNight : Option Int
  discountedPrice : Option Int
  priceReductionPerRoom : Option Int
  bankDetails : Option (List BankEntry)
  promptPay : Option (Option String)
deriving DecidableEq

/-- The empty patch body, for building concrete requests. -/
def PatchReq.empty : PatchReq :=
  { name := none, title := none, description := none, beachfront := none
    maxGuests := none, bedrooms := none, minRooms := none, bathrooms := none
    pricePerNight := none, discountedPrice := none
    priceReductionPerRoom := none, bankDetails := none, promptPay := none }

/-- JavaScript `a >= b` where `b` may be `undefined`: any comparison with
`undefined` is `false`. -/
def jsGE (a : Int) (b : Option Int) : Bool :=
  match b with
  | some b => decide (b ≤ a)
  | none => false

/-- JavaScript `a > b` where `b` may be `undefined`. -/
def jsGT (a : Int) (b : Option Int) : Bool :=
  match b with
  | some b => decide (b < a)
  | none => false

/-- Truthiness of `name?.en && name?.th && title?.en && ...` guarding the
text-field update in `PATCH /villa`. -/
def nameBlockTruthy (r : PatchReq) : Bool :=
  match r.name, r.title, r.description with
  | some n, some t, some d =>
      n.en != "" && n.th != "" && t.en != "" && t.th != "" &&
      d.en != "" && d.th != ""
  | _, _, _ => false

/-- The `beachfront` merge of `PATCH /villa`: each sub-field falls back to
the stored value when the supplied one is falsy. -/
def mergeBeachfront (b old : LocStr) : LocStr :=
  ⟨if b.en != "" then b.en else old.en, if b.th != "" then b.th else old.th⟩

/-- Text, beachfront and pricePerNight updates of `PATCH /villa`, the
mutations that precede the first validation check; they never fail. -/
def patchPre (r : PatchReq) (v0 : Villa) : Villa :=
  let v1 :=
    if nameBlockTruthy r then
      { v0 with name := r.name.getD v0.name, title := r.title.getD v0.title
                description := r.description.getD v0.description }
    else v0
  let v2 :=
    match r.beachfront with
    | some b => { v1 with beachfront := mergeBeachfront b v1.beachfront }
    | none => v1
  match r.pricePerNight with
  | some p => { v2 with pricePerNight := p }
  | none => v2

/-- The discountedPrice step of `PATCH /villa` with its early 400; note
the comparison is against the request-body `pricePerNight`, via the
JavaScript comparison semantics of `jsGE`. -/
def patchDiscount (r : PatchReq) (v : Villa) : Except String Villa :=
  match r.discountedPrice with
  | none => Except.ok v
  | some d =>
      if 0 < d ∧ jsGE d r.pricePerNight then
        Except.error "Discounted price must be less than regular price"
      else Except.ok { v with discountedPrice := d }

/-- The minRooms step of `PATCH /villa` with its early 400; the
comparison is against the request-body `bedrooms`. -/
def patchMinRooms (r : PatchReq) (v : Villa) : Except String Villa :=
  match r.minRooms with
  | none => Except.ok v
  | some m =>
      if jsGT m r.bedrooms then
        Except.error "Minimum rooms cannot be greater than total bedrooms"
      else Except.ok { v with minRooms := m }

/-- The remaining unconditional field updates of `PATCH /villa`, in
source order. -/
def patchRest (r : PatchReq) (v5 : Villa) : Villa :=
  let v6 :=
    match r.bedrooms with
    | some b => { v5 with bedrooms := b }
    | none => v5
  let v7 :=
    match r.bathrooms with
    | some b => { v6 with bathrooms := b }
    | none => v6
  let v8 :=
    match r.priceReductionPerRoom with
    | some p => { v7 with priceReductionPerRoom := p }
    | none => v7
  let v9 :=
    match r.maxGuests with
    | some g => { v8 with maxGuests := g }
    | none => v8
  let v10 :=
    match r.bankDetails with
    | some bd => { v9 with bankDetails := bd }
    | none => v9
  match r.promptPay with
  | some q => { v10 with promptPayQr := q }
  | none => v10

/-- In-memory body of the `PATCH /villa` handler, mutation for mutation in
source order; an `error` is the early `return res.status(400)`, and the
document is only persisted (`villa.save()`) when the whole body runs
through, which the store-level `applyPatchVilla` below reflects. -/
def patchVilla (r : PatchReq) (v0 : Villa) : Except String Villa :=
  match patchDiscount r (patchPre r v0) with
  | Except.error m => Except.error m
  | Except.ok v4 =>
      match patchMinRooms r v4 with
      | Except.error m => Except.error m
      | Except.ok v5 => Except.ok (patchRest r v5)

/-- Store-level `PATCH /villa`: the handler works on the found document
(or `new Villa()`), and the store changes only on `villa.save()`, which is
reached only when no validation branch returned 400. -/
def applyPatchVilla (store : Option Villa) (r : PatchReq) :
    Option Villa × Resp :=
  match patchVilla r (store.getD emptyVilla) with
  | Except.error m => (store, Resp.badRequest m)
  | Except.ok v => (some v, Resp.ok)

/-- Collapses each run of whitespace characters to a single dash,
embedding the `replace(\s+ pattern, dash)` step of the bank-details
route. -/
def dashWs : List Char → List Char
  | [] => []
  | [c] => if c.isWhitespace then ['-'] else [c]
  | c :: d :: rest =>
      if c.isWhitespace && d.isWhitespace then dashWs (d :: rest)
      else (if c.isWhitespace then '-' else c) :: dashWs (d :: rest)

/-- Drops leading whitespace characters. -/
def dropWhileWs : List Char → List Char
  | [] => []
  | c :: rest => if c.isWhitespace then dropWhileWs rest else c :: rest

/-- JavaScript `trim()`: remove leading and trailing whitespace. -/
def trimmed (s : String) : String :=
  String.mk ((dropWhileWs ((dropWhileWs s.toList).reverse)).reverse)

/-- Formatting applied by `PATCH /villa/bank-details` before persisting:
trim every field and replace whitespace runs in the account number with
dashes. -/
def formatEntry (e : BankEntry) : BankEntry :=
  ⟨trimmed e.bank, String.mk (dashWs (trimmed e.accountNumber).toList),
   trimmed e.accountName⟩

/-- Truthiness check of the bank-details validation loop: every required
field present and nonempty. -/
def entryValid (e : BankEntry) : Bool :=
  e.bank != "" && e.accountNumber != "" && e.accountName != ""

/-- The `bankDetails` request value of `PATCH /villa/bank-details`, which
is first checked with `Array.isArray`. -/
inductive BankInput where
  | arr : List BankEntry → BankInput
  | notArray : BankInput
deriving DecidableEq

/-- The `PATCH /villa/bank-details` handler: reject a non-array body,
reject any entry with a missing field, otherwise persist the formatted
entries (finding or creating the villa only after validation). -/
def patchBankDetails (store : Option Villa) (input : BankInput) :
    Option Villa × Resp :=
  match input with
  | BankInput.notArray => (store, Resp.badRequest "Bank details must be an array")
  | BankInput.arr l =>
      if l.all entryValid then
        (some { store.getD emptyVilla with bankDetails := l.map formatEntry },
         Resp.ok)
      else
        (store, Resp.badRequest
          "Each bank detail must include bank name, account number, and account name")

/-- JavaScript indexing `arr[i]`: `undefined` both past the end and when
the stored entry itself is `undefined`. -/
def getJs (l : List (Option String)) (i : Nat) : Option String :=
  (l.get? i).getD none

/-- Truthiness of a slide entry: `undefined` and the empty string are
falsy. -/
def slideTruthy (e : Option String) : Bool :=
  match e with
  | none => false
  | some s => s != ""

/-- The `DELETE /villa/slides/:index` handler: 404 when the villa is
absent or `villa.slideImages[index]` is falsy, otherwise splice the entry
out and save. -/
def deleteSlide (store : Option Villa) (i : Nat) : Option Villa × Resp :=
  match store with
  | none => (none, Resp.notFound)
  | some v =>
      if slideTruthy (getJs v.slideImages i) then
        (some { v with slideImages := v.slideImages.eraseIdx i }, Resp.ok)
      else (store, Resp.notFound)

/-- The `PATCH /villa/slides/reorder` handler: 404 when the villa is
absent, 400 when `newOrder` is not an array, otherwise replace the slide
array by `newOrder.map(index => villa.slideImages[index])` with no
permutation check. -/
def reorderSlides (store : Option Villa) (order : Option (List Nat)) :
    Option Villa × Resp :=
  match store with
  | none => (none, Resp.notFound)
  | some v =>
      match order with
      | none => (some v, Resp.badRequest "Invalid order format")
      | some ord =>
          (some { v with slideImages := ord.map (fun i => getJs v.slideImages i) },
           Resp.ok)

/-- The `GET /villa` handler: lazily create the hardcoded default document
when none exists, otherwise return the stored one unchanged. -/
def getVilla (store : Option Villa) : Option Villa × Villa :=
  match store with
  | none => (some defaultVilla, defaultVilla)
  | some v => (some v, v)

/-- The `PATCH /villa/background` handler with a file present: replace the
background image URL. -/
def setBackground (store : Option Villa) (url : String) : Option Villa × Resp :=
  match store with
  | none => (none, Resp.notFound)
  | some v => (some { v with backgroundImage := some url }, Resp.ok)

/-- The `DELETE /villa/background` handler. -/
def deleteBackground (store : Option Villa) : Option Villa × Resp :=
  match store with
  | none => (none, Resp.notFound)
  | some v =>
      match v.backgroundImage with
      | none => (some v, Resp.notFound)
      | some _ => (some { v with backgroundImage := none }, Resp.ok)

/-- The `POST /villa/slides` handler with files present: replace the whole
slide array by the uploaded URLs. -/
def setSlides (store : Option Villa) (urls : List String) : Option Villa × Resp :=
  match store with
  | none => (none, Resp.notFound)
  | some v => (some { v with slideImages := urls.map some }, Resp.ok)

/-- The `POST /villa/promptpay-qr` handler with a file present. -/
def setPromptPayQr (store : Option Villa) (url : String) : Option Villa × Resp :=
  match store with
  | none => (none, Resp.notFound)
  | some v => (some { v with promptPayQr := some url }, Resp.ok)

/-- The `DELETE /villa/promptpay-qr` handler. -/
def deletePromptPayQr (store : Option Villa) : Option Villa × Resp :=
  match store with
  | none => (none, Resp.notFound)
  | some v =>
      match v.promptPayQr with
      | none => (some v, Resp.notFound)
      | some _ => (some { v with promptPayQr := none }, Resp.ok)

/-- The `POST /villa/rooms` handler: append the new room. -/
def addRoom (store : Option Villa) (room : Room) : Option Villa × Resp :=
  match store with
  | none => (none, Resp.notFound)
  | some v => (some { v with rooms := v.rooms ++ [room] }, Resp.ok)

/-- The `DELETE /villa/rooms/:index` handler: 404 when the room index is
absent, otherwise splice it out. -/
def deleteRoom (store : Option Villa) (i : Nat) : Option Villa × Resp :=
  match store with
  | none => (none, Resp.notFound)
  | some v =>
      if i < v.rooms.length then
        (some { v with rooms := v.rooms.eraseIdx i }, Resp.ok)
      else (some v, Resp.notFound)

/-- One villa route invocation, for store-level statements quantifying
over every modelled operation. -/
inductive VillaOp where
  | get : VillaOp
  | patch : PatchReq → VillaOp
  | bank : BankInput → VillaOp
  | delSlide : Nat → VillaOp
  | reorder : Option (List Nat) → VillaOp
  | background : String → VillaOp
  | delBackground : VillaOp
  | slides : List String → VillaOp
  | qr : String → VillaOp
  | delQr : VillaOp
  | room : Room → VillaOp
  | delRoom : Nat → VillaOp

/-- Applies one villa route to the store; the second component is the
response. -/
def applyVillaOp (op : VillaOp) (store : Option Villa) : Option Villa × Resp :=
  match op with
  | VillaOp.get => ((getVilla store).1, Resp.ok)
  | VillaOp.patch r => applyPatchVilla store r
  | VillaOp.bank i => patchBankDetails store i
  | VillaOp.delSlide i => deleteSlide store i
  | VillaOp.reorder o => reorderSlides store o
  | VillaOp.background u => setBackground store u
  | VillaOp.delBackground => deleteBackground store
  | VillaOp.slides us => setSlides store us
  | VillaOp.qr u => setPromptPayQr store u
  | VillaOp.delQr => deletePromptPayQr store
  | VillaOp.room r => addRoom store r
  | VillaOp.delRoom i => deleteRoom store i

/-- Booking status; `draft` is the pre-payment-method state of a freshly
created record. -/
inductive BStatus where
  | draft : BStatus
  | pending_payment : BStatus
  | pending : BStatus
  | confirmed : BStatus
  | expired : BStatus
  | cancelled : BStatus
deriving DecidableEq

/-- Terminal booking statuses: confirmed, expired, cancelled. -/
def BStatus.isTerminal : BStatus → Bool
  | BStatus.confirmed => true
  | BStatus.expired => true
  | BStatus.cancelled => true
  | _ => false

/-- Payment method chosen by the customer. -/
inductive PayMethod where
  | bank_transfer : PayMethod
  | promptpay : PayMethod
deriving DecidableEq

/-- The `paymentDetails` sub-document written on evidence submission. -/
structure PaymentDetails where
  method : PayMethod
  slipUrl : String
  status : String
deriving DecidableEq

/-- One booking record. Times are in abstract clock units. -/
structure Booking where
  firstName : String
  lastName : String
  contact : String
  checkIn : Nat
  checkOut : Nat
  guests : Nat
  totalPrice : Int
  paymentMethod : Option PayMethod
  paymentDetails : Option PaymentDetails
  paymentSlipUrl : Option String
  status : BStatus
  createdAt : Nat
  expiresAt : Nat
deriving DecidableEq

/-- Booking-route failures; `invalidTransition` is the HTTP 409 of the
error taxonomy. -/
inductive BErr where
  | notFound : BErr
  | invalidTransition : BErr
deriving DecidableEq

/-- Modelled from the spec: the fixed payment window added to `createdAt`
to obtain `expiresAt`; its concrete length is in server files not among
the provided sources and no theorem depends on it. -/
def paymentWindow : Nat := 86400000

/-- Number of nights between check-in and check-out. -/
def nightsOf (checkIn checkOut : Nat) : Nat := checkOut - checkIn

/-- Effective nightly price: the discounted price when set and nonzero,
otherwise the regular price. -/
def effectivePricePerNight (v : Villa) : Int :=
  if v.discountedPrice ≠ 0 then v.discountedPrice else v.pricePerNight

/-- Modelled from the spec: booking creation (the booking-creation server
route is not among the provided sources). The total is derived from the
villa pricing at creation time, the record starts in `draft` with no
payment data, and `expiresAt` is `createdAt` plus the fixed window. -/
def createBooking (v : Villa) (fn ln contact : String)
    (checkIn checkOut guests now : Nat) : Booking :=
  { firstName := fn, lastName := ln, contact := contact
    checkIn := checkIn, checkOut := checkOut, guests := guests
    totalPrice := (nightsOf checkIn checkOut : Int) * effectivePricePerNight v
    paymentMethod := none, paymentDetails := none, paymentSlipUrl := none
    status := BStatus.draft, createdAt := now
    expiresAt := now + paymentWindow }

/-- Modelled from the spec: `selectPaymentMethod` (served by the booking
PATCH route, not among the provided sources). Requires a non-terminal
booking; persists the method and moves the status to `pending_payment`. -/
def selectPaymentMethod (b : Booking) (m : PayMethod) : Except BErr Booking :=
  if b.status.isTerminal then Except.error BErr.invalidTransition
  else Except.ok { b with paymentMethod := some m
                          status := BStatus.pending_payment }

/-- Modelled from the spec: `submitPaymentEvidence`, the authoritative
server-side check-and-set on the stored record (the booking PATCH route is
not among the provided sources; its client caller posts the slip and then
patches the booking). Rejects after expiry and whenever the stored status
is not `pending_payment`, so a second submission can never overwrite the
first. -/
def submitPaymentEvidence (b : Booking) (m : PayMethod) (slipUrl : String)
    (now : Nat) : Except BErr Booking :=
  if b.expiresAt ≤ now then Except.error BErr.invalidTransition
  else if b.status ≠ BStatus.pending_payment then
    Except.error BErr.invalidTransition
  else
    Except.ok { b with paymentSlipUrl := some slipUrl
                       paymentDetails := some ⟨m, slipUrl, "pending"⟩
                       status := BStatus.pending }

/-- Modelled from the spec: the lazy expiry check run on every read of a
booking; a `pending_payment` record past its window is returned as
`expired`. -/
def readBooking (b : Booking) (now : Nat) : Booking :=
  if b.status = BStatus.pending_payment ∧ b.expiresAt ≤ now then
    { b with status := BStatus.expired }
  else b

/-- Modelled from the spec: the administrator verifying the slip. -/
def confirmBooking (b : Booking) : Except BErr Booking :=
  if b.status = BStatus.pending then
    Except.ok { b with status := BStatus.confirmed }
  else Except.error BErr.invalidTransition

/-- Modelled from the spec: explicit cancellation, permitted while
non-terminal. -/
def cancelBooking (b : Booking) : Except BErr Booking :=
  if b.status.isTerminal then Except.error BErr.invalidTransition
  else Except.ok { b with status := BStatus.cancelled }

/-- Store-level evidence submission: a rejected submission leaves the
stored record untouched. -/
def storeSubmitEvidence (store : Option Booking) (m : PayMethod)
    (slipUrl : String) (now : Nat) : Option Booking × Except BErr Unit :=
  match store with
  | none => (none, Except.error BErr.notFound)
  | some b =>
      match submitPaymentEvidence b m slipUrl now with
      | Except.error e => (some b, Except.error e)
      | Except.ok b2 => (some b2, Except.ok ())

/-- Concrete villa for witnesses: the default villa with no discount. -/
def wVilla : Villa := defaultVilla

/-- Concrete persisted booking awaiting evidence, for witnesses. -/
def wBookingPP : Booking :=
  { firstName := "Ada", lastName := "L", contact := "a@b"
    checkIn := 1, checkOut := 4, guests := 2, totalPrice := 897
    paymentMethod := some PayMethod.bank_transfer
    paymentDetails := none, paymentSlipUrl := none
    status := BStatus.pending_payment, createdAt := 0, expiresAt := 100 }

/-- The record `wBookingPP` becomes after a successful first evidence
submission. -/
def wBookingP : Booking :=
  { wBookingPP with
    paymentSlipUrl := some "slip1"
    paymentDetails := some ⟨PayMethod.bank_transfer, "slip1", "pending"⟩
    status := BStatus.pending }

/-- Helper: the status check-and-set rejects any submission whose stored
status is not `pending_payment`. -/
theorem submit_rejects_non_pending_payment (b : Booking) (m : PayMethod)
    (slip : String) (now : Nat) (h : b.status ≠ BStatus.pending_payment) :
    submitPaymentEvidence b m slip now = Except.error BErr.invalidTransition := by
  unfold submitPaymentEvidence
  split
  · rfl
  · rfl


/-- Helper: at store level, a submission against a record already in
`pending` is rejected and the record kept as is. -/
theorem storeSubmit_rejects_pending (b : Booking)
    (hb : b.status = BStatus.pending) (m : PayMethod) (slip : String)
    (now : Nat) :
    storeSubmitEvidence (some b) m slip now
      = (some b, Except.error BErr.invalidTransition) := by
  have hr := submit_rejects_non_pending_payment b m slip now
    (by rw [hb]; simp)
  simp [storeSubmitEvidence, hr]

/-- C1: on the stored booking, evidence submission succeeds at most once:
a successful first submission records the slip URL and moves the status to
`pending`, and from then on every further submission is rejected with
`invalidTransition` by the status check-and-set on the stored record,
leaving the stored `paymentSlipUrl` unchanged. -/
theorem submitPaymentEvidence_at_most_once
    (b b1 : Booking) (m : PayMethod) (slip : String) (t1 : Nat)
    (h : storeSubmitEvidence (some b) m slip t1 = (some b1, Except.ok ())) :
    b1.paymentSlipUrl = some slip ∧ b1.status = BStatus.pending ∧
    ∀ m2 slip2 t2,
      storeSubmitEvidence (some b1) m2 slip2 t2
        = (some b1, Except.error BErr.invalidTransition) := by
  simp only [storeSubmitEvidence] at h
  rcases hs : submitPaymentEvidence b m slip t1 with e | b2
  · rw [hs] at h
    simp at h
  · rw [hs] at h
    simp only [Prod.mk.injEq, Option.some.injEq] at h
    obtain ⟨h2, -⟩ := h
    subst h2
    unfold submitPaymentEvidence at hs
    split at hs
    · cases hs
    · split at hs
      · cases hs
      · injection hs with hb
        subst hb
        exact ⟨rfl, rfl, fun m2 slip2 t2 =>
          storeSubmit_rejects_pending _ rfl m2 slip2 t2⟩

/-- Witness for C1 at the concrete booking `wBookingPP`: the first
submission succeeds, the second is rejected and the stored slip URL stays
`slip1`. -/
theorem submitPaymentEvidence_at_most_once_witness :
    wBookingP.paymentSlipUrl = some "slip1" ∧
    storeSubmitEvidence (some wBookingP) PayMethod.promptpay "slip2" 20
      = (some wBookingP, Except.error BErr.invalidTransition) := by
  have h := submitPaymentEvidence_at_most_once wBookingPP wBookingP
    PayMethod.bank_transfer "slip1" 10 rfl
  exact ⟨h.1, h.2.2 PayMethod.promptpay "slip2" 20⟩

/-- C2: the server-side expiry decision is authoritative: at any time past
`expiresAt` an evidence submission is rejected with `invalidTransition`,
and a read of a booking still awaiting evidence returns it as `expired`. -/
theorem expiry_is_authoritative (b : Booking) (m : PayMethod) (slip : String)
    (now : Nat) (hexp : b.expiresAt ≤ now) :
    submitPaymentEvidence b m slip now = Except.error BErr.invalidTransition ∧
    (b.status = BStatus.pending_payment →
      (readBooking b now).status = BStatus.expired) := by
  constructor
  · unfold submitPaymentEvidence
    simp [hexp]
  · intro hst
    unfold readBooking
    simp [hst, hexp]

/-- Witness for C2 at time 200, past the expiry 100 of `wBookingPP`. -/
theorem expiry_is_authoritative_witness :
    submitPaymentEvidence wBookingPP PayMethod.bank_transfer "slip1" 200
      = Except.error BErr.invalidTransition ∧
    (readBooking wBookingPP 200).status = BStatus.expired := by
  have h := expiry_is_authoritative wBookingPP PayMethod.bank_transfer
    "slip1" 200 (by decide)
  exact ⟨h.1, h.2 (by decide)⟩

/-- C3: a booking total is nights times the effective nightly price at
creation, and every later lifecycle operation (payment-method selection,
evidence submission, lazy-expiry read, confirmation, cancellation) leaves
`totalPrice` unchanged. -/
theorem totalPrice_fixed_at_creation
    (v : Villa) (fn ln c : String) (ci co g now : Nat) (b b2 : Booking) :
    (createBooking v fn ln c ci co g now).totalPrice
      = (nightsOf ci co : Int) * effectivePricePerNight v ∧
    (∀ m, selectPaymentMethod b m = Except.ok b2 →
        b2.totalPrice = b.totalPrice) ∧
    (∀ m slip t, submitPaymentEvidence b m slip t = Except.ok b2 →
        b2.totalPrice = b.totalPrice) ∧
    (∀ t, (readBooking b t).totalPrice = b.totalPrice) ∧
    (confirmBooking b = Except.ok b2 → b2.totalPrice = b.totalPrice) ∧
    (cancelBooking b = Except.ok b2 → b2.totalPrice = b.totalPrice) := by
  refine ⟨rfl, ?_, ?_, ?_, ?_, ?_⟩
  · intro m h
    unfold selectPaymentMethod at h
    split at h
    · exact absurd h (by simp)
    · simp only [Except.ok.injEq] at h
      subst h
      rfl
  · intro m slip t h
    unfold submitPaymentEvidence at h
    split at h
    · exact absurd h (by simp)
    · split at h
      · exact absurd h (by simp)
      · simp only [Except.ok.injEq] at h
        subst h
        rfl
  · intro t
    unfold readBooking
    split <;> rfl
  · intro h
    unfold confirmBooking at h
    split at h
    · simp only [Except.ok.injEq] at h
      subst h
      rfl
    · exact absurd h (by simp)
  · intro h
    unfold cancelBooking at h
    split at h
    · exact absurd h (by simp)
    · simp only [Except.ok.injEq] at h
      subst h
      rfl

/-- Witness for C3: the scenario booking (3 nights at 299) totals 897, and
each lifecycle step evaluated on concrete records keeps the total. -/
theorem totalPrice_fixed_at_creation_witness :
    (createBooking wVilla "Ada" "L" "a@b" 1 4 2 0).totalPrice = 897 ∧
    ({ wBookingPP with paymentMethod := some PayMethod.promptpay
                       status := BStatus.pending_payment } : Booking).totalPrice
      = wBookingPP.totalPrice ∧
    wBookingP.totalPrice = wBookingPP.totalPrice ∧
    (readBooking wBookingPP 200).totalPrice = wBookingPP.totalPrice ∧
    ({ wBookingP with status := BStatus.confirmed } : Booking).totalPrice
      = wBookingP.totalPrice ∧
    ({ wBookingPP with status := BStatus.cancelled } : Booking).totalPrice
      = wBookingPP.totalPrice := by
  refine ⟨?_, ?_, ?_, ?_, ?_, ?_⟩
  · have h := (totalPrice_fixed_at_creation wVilla "Ada" "L" "a@b" 1 4 2 0
      wBookingPP wBookingPP).1
    rw [h]; decide
  · exact (totalPrice_fixed_at_creation wVilla "Ada" "L" "a@b" 1 4 2 0
      wBookingPP _).2.1 PayMethod.promptpay rfl
  · exact (totalPrice_fixed_at_creation wVilla "Ada" "L" "a@b" 1 4 2 0
      wBookingPP _).2.2.1 PayMethod.bank_transfer "slip1" 10 rfl
  · exact (totalPrice_fixed_at_creation wVilla "Ada" "L" "a@b" 1 4 2 0
      wBookingPP wBookingPP).2.2.2.1 200
  · exact (totalPrice_fixed_at_creation wVilla "Ada" "L" "a@b" 1 4 2 0
      wBookingP _).2.2.2.2.1 rfl
  · exact (totalPrice_fixed_at_creation wVilla "Ada" "L" "a@b" 1 4 2 0
      wBookingPP _).2.2.2.2.2 rfl

/-- C4 counterexample: the discount validation compares against the
request-body `pricePerNight`, not the stored one, and a JavaScript
comparison with `undefined` is false; so a patch carrying only
`discountedPrice` bypasses the check: on a villa priced 100, a
discountedPrice of 200 is accepted and persisted with a 200 response. -/
theorem discount_check_bypassed_when_price_absent :
    applyPatchVilla (some { emptyVilla with pricePerNight := 100 })
        { PatchReq.empty with discountedPrice := some 200 }
      = (some { emptyVilla with pricePerNight := 100, discountedPrice := 200 },
         Resp.ok) := by
  rfl

/-- C5 counterexample: the minRooms validation compares against the
request-body `bedrooms`, not the stored one; a patch carrying only
`minRooms` bypasses the check: on a villa with 3 bedrooms, minRooms 5 is
accepted and persisted with a 200 response. -/
theorem minRooms_check_bypassed_when_bedrooms_absent :
    applyPatchVilla (some { emptyVilla with bedrooms := 3 })
        { PatchReq.empty with minRooms := some 5 }
      = (some { emptyVilla with bedrooms := 3, minRooms := 5 }, Resp.ok) := by
  rfl

/-- Helper: the trailing unconditional updates never touch
`discountedPrice`. -/
theorem patchRest_discountedPrice (r : PatchReq) (v : Villa) :
    (patchRest r v).discountedPrice = v.discountedPrice := by
  unfold patchRest
  cases r.bedrooms <;> cases r.bathrooms <;> cases r.priceReductionPerRoom <;>
    cases r.maxGuests <;> cases r.bankDetails <;> cases r.promptPay <;> rfl

/-- Helper: the trailing unconditional updates never touch `minRooms`. -/
theorem patchRest_minRooms (r : PatchReq) (v : Villa) :
    (patchRest r v).minRooms = v.minRooms := by
  unfold patchRest
  cases r.bedrooms <;> cases r.bathrooms <;> cases r.priceReductionPerRoom <;>
    cases r.maxGuests <;> cases r.bankDetails <;> cases r.promptPay <;> rfl

/-- Helper: a successful minRooms step never changes `discountedPrice`. -/
theorem patchMinRooms_discountedPrice (r : PatchReq) (v v5 : Villa)
    (h : patchMinRooms r v = Except.ok v5) :
    v5.discountedPrice = v.discountedPrice := by
  rcases hm : r.minRooms with _ | m
  · simp only [patchMinRooms, hm, Except.ok.injEq] at h
    rw [← h]
  · simp only [patchMinRooms, hm] at h
    split at h
    · cases h
    · injection h with h2
      rw [← h2]

/-- C4 amended: the rejection condition of the discount update is
request-relative: a patch carrying `discountedPrice = d` is answered 400
iff `d > 0` and the same request carries a `pricePerNight` with
`d >= pricePerNight` (which, when present, is exactly the value stored
just before the check); when the request omits `pricePerNight` the check
is vacuous, and whenever the patch succeeds the supplied `d` is stored. -/
theorem discount_validation_request_relative (r : PatchReq) (v0 : Villa)
    (d : Int) (hd : r.discountedPrice = some d) :
    (patchVilla r v0
        = Except.error "Discounted price must be less than regular price"
      ↔ 0 < d ∧ jsGE d r.pricePerNight = true) ∧
    (∀ v1, patchVilla r v0 = Except.ok v1 → v1.discountedPrice = d) := by
  constructor
  · constructor
    · intro h
      rcases hdp : patchDiscount r (patchPre r v0) with msg | v4
      · simp only [patchVilla, hdp, Except.error.injEq] at h
        subst h
        simp only [patchDiscount, hd] at hdp
        split at hdp
        · next hc => exact hc
        · exact Except.noConfusion hdp
      · simp only [patchVilla, hdp] at h
        rcases hmr : patchMinRooms r v4 with m2 | v5
        · simp only [hmr, Except.error.injEq] at h
          rcases hmn : r.minRooms with _ | mm
          · simp only [patchMinRooms, hmn] at hmr
            exact Except.noConfusion hmr
          · simp only [patchMinRooms, hmn] at hmr
            split at hmr
            · injection hmr with hm3
              exact absurd (hm3.trans h) (by decide)
            · exact Except.noConfusion hmr
        · simp only [hmr] at h
          exact Except.noConfusion h
    · intro hc
      have hdp : patchDiscount r (patchPre r v0)
          = Except.error "Discounted price must be less than regular price" := by
        simp only [patchDiscount, hd]
        rw [if_pos hc]
      simp only [patchVilla, hdp]
  · intro v1 h
    rcases hdp : patchDiscount r (patchPre r v0) with msg | v4
    · simp only [patchVilla, hdp] at h
      exact Except.noConfusion h
    · simp only [patchVilla, hdp] at h
      rcases hmr : patchMinRooms r v4 with m2 | v5
      · simp only [hmr] at h
        exact Except.noConfusion h
      · simp only [hmr, Except.ok.injEq] at h
        have h4 : v4.discountedPrice = d := by
          simp only [patchDiscount, hd] at hdp
          split at hdp
          · exact Except.noConfusion hdp
          · injection hdp with h5
            rw [← h5]
        rw [← h, patchRest_discountedPrice,
          patchMinRooms_discountedPrice r v4 v5 hmr, h4]

/-- Witness for the amended C4: discountedPrice 150 against a request
price of 100 is rejected, and discountedPrice 50 against a request price
of 100 is stored. -/
theorem discount_validation_request_relative_witness :
    patchVilla { PatchReq.empty with pricePerNight := some 100,
                                     discountedPrice := some 150 } emptyVilla
      = Except.error "Discounted price must be less than regular price" ∧
    ({ emptyVilla with pricePerNight := 100,
                       discountedPrice := 50 } : Villa).discountedPrice = 50 := by
  constructor
  · exact (discount_validation_request_relative
      { PatchReq.empty with pricePerNight := some 100,
                            discountedPrice := some 150 }
      emptyVilla 150 rfl).1.mpr (by decide)
  · exact (discount_validation_request_relative
      { PatchReq.empty with pricePerNight := some 100,
                            discountedPrice := some 50 }
      emptyVilla 50 rfl).2 _ rfl

/-- C5 amended: the rejection condition of the minRooms update is
request-relative: once the discount step has passed, a patch carrying
`minRooms = m` is answered 400 iff the same request carries a `bedrooms`
with `m > bedrooms`; when the request omits `bedrooms` the check is
vacuous, and whenever the patch succeeds the supplied `m` is stored. -/
theorem minRooms_validation_request_relative (r : PatchReq) (v0 v4 : Villa)
    (m : Int) (hm : r.minRooms = some m)
    (hstage : patchDiscount r (patchPre r v0) = Except.ok v4) :
    (patchVilla r v0
        = Except.error "Minimum rooms cannot be greater than total bedrooms"
      ↔ jsGT m r.bedrooms = true) ∧
    (∀ v1, patchVilla r v0 = Except.ok v1 → v1.minRooms = m) := by
  constructor
  · constructor
    · intro h
      simp only [patchVilla, hstage] at h
      rcases hmr : patchMinRooms r v4 with m2 | v5
      · simp only [hmr, Except.error.injEq] at h
        simp only [patchMinRooms, hm] at hmr
        split at hmr
        · next hc => exact hc
        · exact Except.noConfusion hmr
      · simp only [hmr] at h
        exact Except.noConfusion h
    · intro hc
      have hmr : patchMinRooms r v4
          = Except.error "Minimum rooms cannot be greater than total bedrooms" := by
        simp only [patchMinRooms, hm]
        rw [if_pos hc]
      simp only [patchVilla, hstage, hmr]
  · intro v1 h
    simp only [patchVilla, hstage] at h
    rcases hmr : patchMinRooms r v4 with m2 | v5
    · simp only [hmr] at h
      exact Except.noConfusion h
    · simp only [hmr, Except.ok.injEq] at h
      have h5 : v5.minRooms = m := by
        simp only [patchMinRooms, hm] at hmr
        split at hmr
        · exact Except.noConfusion hmr
        · injection hmr with h6
          rw [← h6]
      rw [← h, patchRest_minRooms, h5]

/-- Witness for the amended C5: minRooms 5 against request bedrooms 2 is
rejected, and minRooms 2 against request bedrooms 5 is stored. -/
theorem minRooms_validation_request_relative_witness :
    patchVilla { PatchReq.empty with bedrooms := some 2, minRooms := some 5 }
        emptyVilla
      = Except.error "Minimum rooms cannot be greater than total bedrooms" ∧
    ({ emptyVilla with minRooms := 2, bedrooms := 5 } : Villa).minRooms = 2 := by
  constructor
  · exact (minRooms_validation_request_relative
      { PatchReq.empty with bedrooms := some 2, minRooms := some 5 }
      emptyVilla emptyVilla 5 rfl rfl).1.mpr (by decide)
  · exact (minRooms_validation_request_relative
      { PatchReq.empty with bedrooms := some 5, minRooms := some 2 }
      emptyVilla emptyVilla 2 rfl rfl).2 _ rfl

/-- C6 counterexample: the general villa patch route persists
`bankDetails` without any validation, so an entry lacking an account
number and an account name is stored with a 200 response. -/
theorem general_patch_persists_malformed_bankDetails :
    applyPatchVilla (some emptyVilla)
        { PatchReq.empty with bankDetails := some [⟨"KBank", "", ""⟩] }
      = (some { emptyVilla with bankDetails := [⟨"KBank", "", ""⟩] },
         Resp.ok) ∧
    entryValid ⟨"KBank", "", ""⟩ = false := by
  exact ⟨rfl, rfl⟩

/-- C6 amended: the dedicated bank-details route does validate: a
non-array body is rejected with 400, a body containing an entry with a
missing field is rejected with 400, and a body of well-formed entries is
persisted (formatted); the general villa patch route, however, stores
`bankDetails` as given. -/
theorem bankDetails_route_validates (store : Option Villa)
    (l : List BankEntry) :
    patchBankDetails store BankInput.notArray
      = (store, Resp.badRequest "Bank details must be an array") ∧
    ((∃ e ∈ l, entryValid e = false) →
      patchBankDetails store (BankInput.arr l)
        = (store, Resp.badRequest
            "Each bank detail must include bank name, account number, and account name")) ∧
    ((∀ e ∈ l, entryValid e = true) →
      patchBankDetails store (BankInput.arr l)
        = (some { store.getD emptyVilla with bankDetails := l.map formatEntry },
           Resp.ok)) := by
  refine ⟨rfl, ?_, ?_⟩
  · rintro ⟨e, he, hev⟩
    simp only [patchBankDetails]
    rw [if_neg]
    intro hall
    rw [List.all_eq_true] at hall
    have hbad := hall e he
    rw [hev] at hbad
    cases hbad
  · intro hall
    simp only [patchBankDetails]
    rw [if_pos]
    rw [List.all_eq_true]
    intro e he
    exact hall e he

/-- Witness for the amended C6: one entry with empty fields is rejected,
and a well-formed entry is stored trimmed, with the whitespace in its
account number collapsed to dashes. -/
theorem bankDetails_route_validates_witness :
    patchBankDetails (some emptyVilla) (BankInput.arr [⟨"K", "", ""⟩])
      = (some emptyVilla, Resp.badRequest
          "Each bank detail must include bank name, account number, and account name") ∧
    patchBankDetails (some emptyVilla) (BankInput.arr [⟨" K ", "12 34", "N"⟩])
      = (some { emptyVilla with bankDetails := [⟨"K", "12-34", "N"⟩] },
         Resp.ok) := by
  constructor
  · exact (bankDetails_route_validates (some emptyVilla) _).2.1
      ⟨⟨"K", "", ""⟩, by simp, rfl⟩
  · have h := (bankDetails_route_validates (some emptyVilla)
      [⟨" K ", "12 34", "N"⟩]).2.2 (by decide)
    rw [h]
    rfl

/-- C7: a villa update that fails validation with a 400 leaves the
persisted record exactly as it was, both for the general patch route and
for the bank-details route; the document is only saved after every
validation check has passed. -/
theorem validation_failure_preserves_store (store : Option Villa)
    (r : PatchReq) (i : BankInput) (m m2 : String) :
    ((applyPatchVilla store r).2 = Resp.badRequest m →
        (applyPatchVilla store r).1 = store) ∧
    ((patchBankDetails store i).2 = Resp.badRequest m2 →
        (patchBankDetails store i).1 = store) := by
  constructor
  · intro h
    rcases hp : patchVilla r (store.getD emptyVilla) with e | v
    · simp [applyPatchVilla, hp]
    · exfalso
      simp [applyPatchVilla, hp] at h
  · intro h
    cases i with
    | notArray => rfl
    | arr l =>
      simp only [patchBankDetails] at h ⊢
      by_cases hall : l.all entryValid = true
      · rw [if_pos hall] at h
        simp at h
      · rw [if_neg hall]

/-- Witness for C7: a patch rejected by the discount check, and a
non-array bank-details body, both leave the concrete stored villa
untouched. -/
theorem validation_failure_preserves_store_witness :
    (applyPatchVilla (some { emptyVilla with pricePerNight := 80 })
        { PatchReq.empty with pricePerNight := some 100,
                              discountedPrice := some 150 }).1
      = some { emptyVilla with pricePerNight := 80 } ∧
    (patchBankDetails (some emptyVilla) BankInput.notArray).1
      = some emptyVilla := by
  constructor
  · exact (validation_failure_preserves_store
      (some { emptyVilla with pricePerNight := 80 })
      { PatchReq.empty with pricePerNight := some 100,
                            discountedPrice := some 150 }
      BankInput.notArray
      "Discounted price must be less than regular price"
      "Bank details must be an array").1 rfl
  · exact (validation_failure_preserves_store (some emptyVilla)
      PatchReq.empty BankInput.notArray
      "Discounted price must be less than regular price"
      "Bank details must be an array").2 rfl

/-- C8: on a slide sequence whose entries are all real URLs, deleting a
valid index keeps the other entries in their original relative order
(prefix before the index, suffix after it) and shrinks the length by one;
an index with no slide is answered with 404 and the store is untouched. -/
theorem deleteSlide_spec (v : Villa) (i : Nat)
    (hall : ∀ e ∈ v.slideImages, slideTruthy e = true) :
    (i < v.slideImages.length →
      deleteSlide (some v) i
        = (some { v with slideImages :=
            v.slideImages.take i ++ v.slideImages.drop (i + 1) }, Resp.ok) ∧
      (v.slideImages.take i ++ v.slideImages.drop (i + 1)).length
        = v.slideImages.length - 1) ∧
    (v.slideImages.length ≤ i →
      deleteSlide (some v) i = (some v, Resp.notFound)) := by
  constructor
  · intro hi
    have htr : slideTruthy (getJs v.slideImages i) = true := by
      unfold getJs
      rw [List.get?_eq_get hi]
      simp only [Option.getD_some]
      exact hall _ (List.get_mem _ _ hi)
    constructor
    · simp only [deleteSlide, htr, if_true, List.eraseIdx_eq_take_drop_succ]
    · rw [← List.eraseIdx_eq_take_drop_succ]
      have := List.length_eraseIdx_add_one hi
      omega
  · intro hi
    have hnone : getJs v.slideImages i = none := by
      unfold getJs
      rw [List.get?_eq_none.mpr hi]
      rfl
    simp [deleteSlide, hnone, slideTruthy]

/-- Witness for C8: the five-element scenario of the specification,
deleting index 2 keeps the other four in order, and index 7 is a 404. -/
theorem deleteSlide_spec_witness :
    deleteSlide (some { emptyVilla with slideImages :=
        [some "a", some "b", some "c", some "d", some "e"] }) 2
      = (some { emptyVilla with slideImages :=
          [some "a", some "b", some "d", some "e"] }, Resp.ok) ∧
    deleteSlide (some { emptyVilla with slideImages :=
        [some "a", some "b", some "c", some "d", some "e"] }) 7
      = (some { emptyVilla with slideImages :=
          [some "a", some "b", some "c", some "d", some "e"] },
         Resp.notFound) := by
  constructor
  · have h := ((deleteSlide_spec
      { emptyVilla with slideImages :=
        [some "a", some "b", some "c", some "d", some "e"] } 2
      (by decide)).1 (by decide)).1
    rw [h]
    decide
  · exact (deleteSlide_spec
      { emptyVilla with slideImages :=
        [some "a", some "b", some "c", some "d", some "e"] } 7
      (by decide)).2 (by decide)

/-- C9: when no villa exists, the first read creates and returns the
hardcoded default document (price 299, six guests, three bedrooms, three
bathrooms); a read of an existing record returns it unchanged; and no
modelled villa route ever removes the stored record. -/
theorem villa_lazy_create_and_never_deleted (v : Villa) (op : VillaOp)
    (store : Option Villa) (h : store.isSome = true) :
    getVilla none = (some defaultVilla, defaultVilla) ∧
    defaultVilla.pricePerNight = 299 ∧ defaultVilla.maxGuests = 6 ∧
    defaultVilla.bedrooms = 3 ∧ defaultVilla.bathrooms = 3 ∧
    getVilla (some v) = (some v, v) ∧
    (applyVillaOp op store).1.isSome = true := by
  refine ⟨rfl, rfl, rfl, rfl, rfl, rfl, ?_⟩
  rcases store with _ | w
  · cases h
  · cases op <;>
      simp only [applyVillaOp, applyPatchVilla, patchBankDetails,
        deleteSlide, reorderSlides, getVilla, setBackground,
        deleteBackground, setSlides, setPromptPayQr, deletePromptPayQr,
        addRoom, deleteRoom] <;>
      (try split) <;> (try split) <;> simp

/-- Witness for C9: a read on a populated store keeps it populated, and
the default document carries the hardcoded price. -/
theorem villa_lazy_create_and_never_deleted_witness :
    (applyVillaOp VillaOp.get (some emptyVilla)).1.isSome = true ∧
    defaultVilla.pricePerNight = 299 := by
  have h := villa_lazy_create_and_never_deleted emptyVilla VillaOp.get
    (some emptyVilla) rfl
  exact ⟨h.2.2.2.2.2.2, h.2.1⟩

/-- Concrete two-slide villa showing what a non-permutation reorder
produces. -/
def c10villa : Villa := { emptyVilla with slideImages := [some "a", some "b"] }

/-- C10: the reorder route succeeds for every index array, replacing the
slides by the length-preserving index map with no permutation check; the
j-th new entry is the old entry at position newOrder j, and on the
concrete two-slide villa the order 1,1,5 yields a repeated entry and an
undefined entry instead of an error. -/
theorem reorderSlides_maps_indices (v : Villa) (ord : List Nat) :
    reorderSlides (some v) (some ord)
      = (some { v with
          slideImages := ord.map (fun i => getJs v.slideImages i) },
         Resp.ok) ∧
    (ord.map (fun i => getJs v.slideImages i)).length = ord.length ∧
    (∀ j : Nat, (ord.map (fun i => getJs v.slideImages i))[j]?
        = (ord[j]?).map (fun i => getJs v.slideImages i)) ∧
    reorderSlides (some c10villa) (some [1, 1, 5])
      = (some { c10villa with slideImages := [some "b", some "b", none] },
         Resp.ok) := by
  refine ⟨rfl, List.length_map _ _, ?_, rfl⟩
  intro j
  simp [List.getElem?_map]

end Miami
